import Mathlib

/-!
# TediCross — Telegram→Discord relay layer, shallow embedding

Shallow embedding of `src/lib/telegram2discord/setup.js`: the event router
(`createMessageHandler`), the file sender (`makeFileSender`), the name
formatter (`makeNameObject`) and the per-event-kind relay handlers registered
by `setup`.  External collaborators (the message converter, the mime library,
the Telegram/Discord network clients and the message map) are modelled as
parameters or, where the spec is the only authority, as definitions whose doc
comments say so.
-/

/-- Direction of a bridge (the `Bridge.DIRECTION_*` constants; the Bridge
class lives outside src/, but `setup.js` compares `bridge.direction` against
`Bridge.DIRECTION_DISCORD_TO_TELEGRAM`). -/
inductive Direction where
  | both
  | telegramToDiscord
  | discordToTelegram
  deriving DecidableEq, Repr

/-- A bridge, with exactly the fields `setup.js` reads: `bridge.name`,
`bridge.discord.channelId`, `bridge.direction`,
`bridge.telegram.relayJoinMessages`, `bridge.telegram.relayLeaveMessages`
(nesting flattened).  The extra field `sendEmojiWithStickers` is modelled from
the spec: the spec lists it among the per-bridge flags while the Bridge class
is outside src/; the code in src/ reads the global
`settings.telegram.sendEmojiWithStickers` instead, so the field is carried
here only so that the spec's per-bridge reading can be stated and compared. -/
structure Bridge where
  name : String
  channelId : Nat
  direction : Direction
  relayJoinMessages : Bool
  relayLeaveMessages : Bool
  sendEmojiWithStickers : Bool
  deriving DecidableEq

/-- The one field of `settings.telegram` the relay handlers read. -/
structure Settings where
  sendEmojiWithStickers : Bool
  deriving DecidableEq

/-- A Telegram user as read by `makeNameObject`: `first_name`, optional
`last_name`, optional `username`. -/
structure TgUser where
  first_name : String
  last_name : Option String
  username : Option String
  deriving DecidableEq

/-- The fields common to every Telegram message that the router and handlers
read: `message_id`, `chat.id`, optional `text`, optional `caption`. -/
structure TgMessage where
  message_id : Nat
  chat_id : Int
  text : Option String
  caption : Option String
  deriving DecidableEq

/-- Which `tgBot.on(...)` listener fired, together with the payload fields
that listener's handler reads from the message. -/
inductive EventKind where
  | text
  | photo (variantFileIds : List String)
  | sticker (thumbFileId : String) (emoji : Option String)
  | document (fileId : String) (file_name : Option String) (mime_type : String)
  | voice (fileId : String) (mime_type : String)
  | audio (fileId : String) (title : String) (mime_type : String)
  | video (fileId : String) (mime_type : String)
  | newMembers (users : List TgUser)
  | leftMember (user : TgUser)
  | edited
  deriving DecidableEq

/-- An incoming Telegram event: the listener that fired plus the message. -/
structure Event where
  kind : EventKind
  message : TgMessage
  deriving DecidableEq

/-- A call made against the Discord client: `channel.send(text)`,
`channel.send(text, new Discord.Attachment(stream, fileName))`,
`channel.fetchMessage(id)`, or `dcMessage.edit(text)`. -/
inductive DCall where
  | send (channelId : Nat) (text : String)
  | sendWithFile (channelId : Nat) (text : String) (fileId : String) (fileName : String)
  | fetchMessage (channelId : Nat) (messageId : Nat)
  | editMessage (messageId : Nat) (newText : String)
  deriving DecidableEq, Repr

/-- Recognizes a destination edit call. -/
def isEditCall : DCall → Bool
  | DCall.editMessage _ _ => true
  | _ => false

/-- Environment oracle standing for the network: whether the n-th Discord
call of a handler run succeeds (`dcOk`), the id Discord assigns to the n-th
successful send (`dcId`), whether retrieving a Telegram file succeeds
(`fileOk`), the server-side `file.file_path` reported for a file id
(`file_path`), and whether a Telegram sendMessage succeeds (`tgOk`). -/
structure Oracle where
  dcOk : Nat → Bool
  dcId : Nat → Nat
  fileOk : String → Bool
  file_path : String → String
  tgOk : Bool

/-- The external collaborators `setup.js` imports, kept abstract.
`composedOf` and `fromOf` are modelled from the spec: they stand for the
Content Converter (`messageConverter.js`, outside src/) producing
`messageObj.composed` and `messageObj.from`.  `mimeExt` stands for
`mime.getExtension` of the third-party mime library.  `me` is
`tgBot.telegram.me.username` once `getMe` has completed, `bridgeMap` is
`bridgeMap.fromTelegramChatId`, and `settings` the loaded settings. -/
structure Config where
  me : Option String
  bridgeMap : Int → Option Bridge
  settings : Settings
  composedOf : TgMessage → String
  fromOf : TgMessage → String
  mimeExt : String → String

/-- Result of running one relay handler: the Discord calls attempted in
order, the log lines written by `Application.logger.error`, and the
`messageMap.insert(TELEGRAM_TO_DISCORD, ...)` entries recorded. -/
structure HOut where
  dcCalls : List DCall
  logs : List String
  inserts : List (Nat × Nat)
  deriving DecidableEq

/-! ## Chunking (`composed.match` with the 1-to-2000 greedy class regex) -/

/-- Greedy chunking of a character list into pieces of at most 2000
characters, exactly the pieces the global greedy regex match in the text
handler produces.  Fuel-driven structural recursion; any fuel of at least the
list's length suffices since every step consumes at least one character. -/
def chunkGo : Nat → List Char → List (List Char)
  | 0, _ => []
  | _ + 1, [] => []
  | fuel + 1, a :: l => (a :: l).take 2000 :: chunkGo fuel ((a :: l).drop 2000)

/-- `composed.match(regex)`: JS returns `null` on the empty string (modelled
as `none`), otherwise the list of greedy chunks. -/
def jsChunks (s : String) : Option (List String) :=
  match s.data with
  | [] => none
  | _ :: _ => some ((chunkGo s.data.length s.data).map (fun l => String.mk l))

/-- In-order concatenation of a list of strings. -/
def concatStrings (ls : List String) : String :=
  ls.foldr (fun a b => a ++ b) ""

/-- JS `toLowerCase()`, character by character. -/
def jsLower (s : String) : String :=
  String.mk (s.data.map Char.toLower)

/-- JS `str.split(".").pop()`: the segment after the last dot (the whole
string when it has no dot).  `cur` accumulates the current segment in
reverse. -/
def afterLastDot : List Char → List Char → List Char
  | cur, [] => cur.reverse
  | cur, c :: rest =>
    if c = '.' then afterLastDot [] rest else afterLastDot (c :: cur) rest

/-! ## `makeNameObject` -/

/-- `makeNameObject(user).name`: the first name, suffixed with a blank and
the last name when one is present. -/
def makeName (u : TgUser) : String :=
  u.first_name ++ (match u.last_name with
    | some l => " " ++ l
    | none => "")

/-- `makeNameObject(user).username`: an at sign plus the handle when the user
has one, else the fixed placeholder. -/
def makeUsername (u : TgUser) : String :=
  match u.username with
  | some un => "@" ++ un
  | none => "No username"

/-! ## `makeFileSender` -/

/-- The named arguments of one `sendFile(bridge, args)` call site:
file id, file name, optional caption (default empty) and the
`resolveExtension` toggle (default false). -/
structure FileArgs where
  fileId : String
  fileName : String
  caption : String := ""
  resolveExtension : Bool := false
  deriving DecidableEq

/-- Body of the function returned by `makeFileSender`: compose the header
text, fetch the file (the oracle decides whether `getFile`/`getFileLink`/the
download succeed), append the extension taken from the server-reported
`file.file_path` when `resolveExtension` is set, then send to the bridge's
Discord channel.  Returns the Discord calls attempted together with either
the inserts made (none, for files) or the error thrown. -/
def sendFileBody (o : Oracle) (cfg : Config) (b : Bridge) (m : TgMessage)
    (a : FileArgs) : List DCall × Except String (List (Nat × Nat)) :=
  let textToSend := "**" ++ cfg.fromOf m ++ "**:\n" ++ a.caption
  if o.fileOk a.fileId then
    let extension :=
      if a.resolveExtension then
        "." ++ String.mk (afterLastDot [] (o.file_path a.fileId).data)
      else ""
    let call := DCall.sendWithFile b.channelId textToSend a.fileId (a.fileName ++ extension)
    if o.dcOk 0 then ([call], Except.ok [])
    else ([call], Except.error "Discord rejected the file")
  else ([], Except.error "could not retrieve the file from Telegram")

/-- The shape of every log line the handlers write through
`Application.logger.error`, tagged with the bridge name. -/
def catchLog (b : Bridge) (what : String) : String :=
  "[" ++ b.name ++ "] " ++ what

/-! ## The text handler -/

/-- The chunk loop of the text handler: send the chunks in serial to the
channel, each awaited before the next (a rejected send throws out of the
loop, so no later chunk is attempted).  Returns the sends attempted and
either the id Discord assigned to the last chunk (`none` when there was no
chunk, in which case `dcMessage` stays `null`) or the error thrown. -/
def sendChunks (o : Oracle) (ch : Nat) : Nat → List String →
    List DCall × Except String (Option Nat)
  | _, [] => ([], Except.ok none)
  | n, c :: cs =>
    if o.dcOk n then
      let rest := sendChunks o ch (n + 1) cs
      (DCall.send ch c :: rest.1,
        match rest.2 with
        | Except.ok none => Except.ok (some (o.dcId n))
        | r => r)
    else ([DCall.send ch c], Except.error "Discord rejected a chunk")

/-- Body of the `text` handler: convert the message, split the composed text
into chunks of at most 2000 characters, send them in serial, then insert the
last chunk's Discord id under the Telegram message id.  A `null` result of
the regex match (empty composed text) makes the `for...of` throw; a `null`
`dcMessage` would make `dcMessage.id` throw. -/
def textBody (o : Oracle) (cfg : Config) (b : Bridge) (m : TgMessage) :
    List DCall × Except String (List (Nat × Nat)) :=
  let composed := cfg.composedOf m
  match jsChunks composed with
  | none => ([], Except.error "TypeError: chunks is not iterable")
  | some chunks =>
    let r := sendChunks o b.channelId 0 chunks
    (r.1,
      match r.2 with
      | Except.ok (some lastId) => Except.ok [(m.message_id, lastId)]
      | Except.ok none => Except.error "TypeError: dcMessage is null"
      | Except.error e => Except.error e)

/-- The `try`/`catch` of the text handler: on an error, two log lines (both
tagged with the bridge name) and no insert. -/
def textHandler (o : Oracle) (cfg : Config) (b : Bridge) (m : TgMessage) : HOut :=
  match textBody o cfg b m with
  | (calls, Except.ok inserts) => ⟨calls, [], inserts⟩
  | (calls, Except.error _) =>
    ⟨calls,
      [catchLog b "Discord did not accept a text message:",
       catchLog b ("Failed message: " ++ m.text.getD "")],
      []⟩

/-! ## The edited_message handler -/

/-- Body of the `edited_message` handler: look up the Discord id recorded for
the edited Telegram message id, fetch that message from the bridge's channel
and replace its content with the freshly converted composed text.
Modelled from the spec: `MessageMap.getCorresponding` is outside src/; per
the spec a missing correspondence entry means the edit cannot be applied and
the event is dropped with a logged error, so the lookup miss is modelled as a
thrown error caught by the handler before any Discord call. -/
def editedBody (o : Oracle) (cfg : Config) (mm : List (Nat × Nat)) (b : Bridge)
    (m : TgMessage) : List DCall × Except String (List (Nat × Nat)) :=
  match mm.lookup m.message_id with
  | none => ([], Except.error "no corresponding Discord message")
  | some d =>
    if o.dcOk 0 then
      if o.dcOk 1 then
        ([DCall.fetchMessage b.channelId d,
          DCall.editMessage d (cfg.composedOf m)], Except.ok [])
      else
        ([DCall.fetchMessage b.channelId d,
          DCall.editMessage d (cfg.composedOf m)],
         Except.error "Discord rejected the edit")
    else ([DCall.fetchMessage b.channelId d], Except.error "could not fetch the message")

/-! ## Join / leave handlers -/

/-- The notice text for one joining user. -/
def joinText (u : TgUser) : String :=
  "**" ++ makeName u ++ " (" ++ makeUsername u ++ ")** joined the Telegram side of the chat"

/-- The notice text for a leaving user. -/
def leaveText (u : TgUser) : String :=
  "**" ++ makeName u ++ " (" ++ makeUsername u ++ ")** left the Telegram side of the chat"

/-- The `forEach` of the `new_chat_members` handler: one notice per joining
user, each send wrapped in its own `try`/`catch` logging with the bridge
name. -/
def joinNotices (o : Oracle) (b : Bridge) : Nat → List TgUser →
    List DCall × List String
  | _, [] => ([], [])
  | n, u :: us =>
    let rest := joinNotices o b (n + 1) us
    (DCall.send b.channelId (joinText u) :: rest.1,
      if o.dcOk n then rest.2
      else catchLog b "Could not notify Discord about a user that joined Telegram" :: rest.2)

/-- The `new_chat_members` handler: return early unless the bridge relays
join messages, else notify Discord about each user. -/
def newMembersHandler (o : Oracle) (b : Bridge) (users : List TgUser) : HOut :=
  if b.relayJoinMessages then
    let r := joinNotices o b 0 users
    ⟨r.1, r.2, []⟩
  else ⟨[], [], []⟩

/-- The `left_chat_member` handler: return early unless the bridge relays
leave messages, else send one notice, failure caught and logged. -/
def leftHandler (o : Oracle) (b : Bridge) (u : TgUser) : HOut :=
  if b.relayLeaveMessages then
    if o.dcOk 0 then ⟨[DCall.send b.channelId (leaveText u)], [], []⟩
    else
      ⟨[DCall.send b.channelId (leaveText u)],
        [catchLog b "Could not notify Discord about a user that left Telegram"], []⟩
  else ⟨[], [], []⟩

/-! ## The file-bearing handlers and dispatch -/

/-- `sendFile` arguments at the sticker call site: the thumbnail variant's
file id, the fixed name "sticker.webp", and the sticker's emoji as caption
exactly when the global `settings.telegram.sendEmojiWithStickers` is set
(an absent emoji, like an absent caption, defaults to the empty string). -/
def stickerArgs (st : Settings) (thumbFileId : String) (emoji : Option String) : FileArgs :=
  { fileId := thumbFileId
    fileName := "sticker.webp"
    caption := if st.sendEmojiWithStickers then emoji.getD "" else "" }

/-- `sendFile` arguments at the document call site: the source-provided file
name, or "file." plus the mime-derived extension when absent. -/
def documentArgs (mimeExt : String → String) (fileId : String)
    (file_name : Option String) (mime_type : String) : FileArgs :=
  { fileId := fileId
    fileName := file_name.getD ("file." ++ mimeExt mime_type)
    resolveExtension := false }

/-- `sendFile` arguments at the voice call site: fixed base "voice" plus a
dot plus the mime-derived extension, no server-side resolution. -/
def voiceArgs (mimeExt : String → String) (fileId : String) (mime_type : String) : FileArgs :=
  { fileId := fileId
    fileName := "voice" ++ "." ++ mimeExt mime_type
    resolveExtension := false }

/-- `sendFile` arguments at the audio call site: the audio's title as file
name, with server-side extension resolution requested. -/
def audioArgs (fileId : String) (title : String) : FileArgs :=
  { fileId := fileId
    fileName := title
    resolveExtension := true }

/-- `sendFile` arguments at the video call site: fixed base "video" plus a
dot plus the mime-derived extension, the message caption, no server-side
resolution. -/
def videoArgs (mimeExt : String → String) (fileId : String) (mime_type : String)
    (caption : Option String) : FileArgs :=
  { fileId := fileId
    fileName := "video" ++ "." ++ mimeExt mime_type
    caption := caption.getD "" }

/-- The body of the handler for one bridged event, before its `try`/`catch`:
dispatch on the listener that fired.  The photo handler indexes
`message.photo[message.photo.length - 1]`, which throws on an empty array.
The join and leave handlers do not fit this shape (no single surrounding
`try`) and are dispatched directly in `handleBridged`. -/
def bridgedBody (o : Oracle) (cfg : Config) (mm : List (Nat × Nat)) (ev : Event)
    (b : Bridge) : List DCall × Except String (List (Nat × Nat)) :=
  match ev.kind with
  | EventKind.text => textBody o cfg b ev.message
  | EventKind.photo variants =>
    match variants.getLast? with
    | none => ([], Except.error "TypeError: no photo variant")
    | some fid =>
      sendFileBody o cfg b ev.message
        { fileId := fid, fileName := "photo.jpg", caption := ev.message.caption.getD "" }
  | EventKind.sticker thumb emoji =>
    sendFileBody o cfg b ev.message (stickerArgs cfg.settings thumb emoji)
  | EventKind.document fid fn mt =>
    sendFileBody o cfg b ev.message (documentArgs cfg.mimeExt fid fn mt)
  | EventKind.voice fid mt =>
    sendFileBody o cfg b ev.message (voiceArgs cfg.mimeExt fid mt)
  | EventKind.audio fid title _ =>
    sendFileBody o cfg b ev.message (audioArgs fid title)
  | EventKind.video fid mt =>
    sendFileBody o cfg b ev.message (videoArgs cfg.mimeExt fid mt ev.message.caption)
  | EventKind.newMembers _ => ([], Except.ok [])
  | EventKind.leftMember _ => ([], Except.ok [])
  | EventKind.edited => editedBody o cfg mm b ev.message

/-- A handler's `try`/`catch`: an error becomes one tagged log line and no
insert; the Discord calls already attempted stand. -/
def runCatch (b : Bridge) (what : String)
    (r : List DCall × Except String (List (Nat × Nat))) : HOut :=
  match r with
  | (calls, Except.ok inserts) => ⟨calls, [], inserts⟩
  | (calls, Except.error _) => ⟨calls, [catchLog b what], []⟩

/-- Run the relay handler registered for the event's kind against a resolved
bridge. -/
def handleBridged (o : Oracle) (cfg : Config) (mm : List (Nat × Nat)) (ev : Event)
    (b : Bridge) : HOut :=
  match ev.kind with
  | EventKind.text => textHandler o cfg b ev.message
  | EventKind.photo _ => runCatch b "Could not send photo" (bridgedBody o cfg mm ev b)
  | EventKind.sticker _ _ => runCatch b "Could not send sticker" (bridgedBody o cfg mm ev b)
  | EventKind.document _ _ _ => runCatch b "Could not send document" (bridgedBody o cfg mm ev b)
  | EventKind.voice _ _ => runCatch b "Could not send voice" (bridgedBody o cfg mm ev b)
  | EventKind.audio _ _ _ => runCatch b "Could not send audio" (bridgedBody o cfg mm ev b)
  | EventKind.video _ _ => runCatch b "Could not send video" (bridgedBody o cfg mm ev b)
  | EventKind.newMembers users => newMembersHandler o b users
  | EventKind.leftMember u => leftHandler o b u
  | EventKind.edited => runCatch b "Could not edit Discord message:" (bridgedBody o cfg mm ev b)

/-! ## The router (`createMessageHandler`) -/

/-- The chat-info interception test: the message has text, the bot knows its
own username, and the text equals the at-mention command case-insensitively. -/
def isChatinfo (me : Option String) (m : TgMessage) : Bool :=
  match m.text, me with
  | some t, some u => decide (jsLower t = jsLower ("@" ++ u ++ " chatinfo"))
  | _, _ => false

/-- The fixed advisory text sent to a chat with no bridge. -/
def advisoryText : String :=
  "This is an instance of a [TediCross](https://github.com/TediCross/TediCross) bot, "
    ++ "bridging a chat in Telegram with one in Discord. "
    ++ "If you wish to use TediCross yourself, please download and create an instance. "
    ++ "Join our [Telegram group](https://t.me/TediCrossSupport) or [Discord server](https://discord.gg/MfzGMzy) for help"

/-- The log line written when the advisory send itself fails. -/
def advisoryFailLog : String :=
  "Could not tell user to get their own TediCross instance:"

/-- Result of routing one incoming event: the Telegram sendMessage calls
made, the wrapped handler's output when one ran, and the router's own log
lines. -/
structure RouterOut where
  tgCalls : List (Int × String)
  handled : Option HOut
  logs : List String
  deriving DecidableEq

/-- `createMessageHandler tgBot bridgeMap func ctx`: answer the chat-info
command in any chat; otherwise resolve the bridge, advise an unmanaged chat
(the advisory's own failure only logged), and call the wrapped handler unless
the bridge is Discord-to-Telegram only. -/
def createMessageHandler (o : Oracle) (cfg : Config)
    (func : Event → Bridge → HOut) (ev : Event) : RouterOut :=
  let m := ev.message
  if isChatinfo cfg.me m then
    ⟨[(m.chat_id, "chatID: " ++ toString m.chat_id)], none, []⟩
  else
    match cfg.bridgeMap m.chat_id with
    | none =>
      ⟨[(m.chat_id, advisoryText)], none, if o.tgOk then [] else [advisoryFailLog]⟩
    | some b =>
      if b.direction ≠ Direction.discordToTelegram then ⟨[], some (func ev b), []⟩
      else ⟨[], none, []⟩

/-- Handle one incoming Telegram event end to end, with the correspondence
store `mm` in hand. -/
def handleEvent (o : Oracle) (cfg : Config) (mm : List (Nat × Nat)) (ev : Event) :
    RouterOut :=
  createMessageHandler o cfg (fun e b => handleBridged o cfg mm e b) ev

/-- The correspondence-store entries an event's handling recorded. -/
def routerInserts (r : RouterOut) : List (Nat × Nat) :=
  match r.handled with
  | some h => h.inserts
  | none => []

/-- Process a stream of events in delivery order, threading the
correspondence store (prepending inserts: `MessageMap.insert` is last-write
wins per key, modelled from the spec).  Each event carries its own oracle. -/
def processEvents (cfg : Config) : List (Oracle × Event) → List (Nat × Nat) →
    List RouterOut × List (Nat × Nat)
  | [], mm => ([], mm)
  | (o, ev) :: rest, mm =>
    let r := handleEvent o cfg mm ev
    let next := processEvents cfg rest (routerInserts r ++ mm)
    (r :: next.1, next.2)

/-! ## Concrete instances used by witnesses and counterexamples -/

/-- A fully successful oracle assigning Discord id `n + 100` to the n-th send. -/
def oA : Oracle :=
  { dcOk := fun _ => true
    dcId := fun n => n + 100
    fileOk := fun _ => true
    file_path := fun _ => "files/x.mp3"
    tgOk := true }

/-- The successful oracle with a failing Telegram send. -/
def oTgFail : Oracle :=
  { oA with tgOk := false }

/-- An oracle whose Discord calls all fail. -/
def oDcFail : Oracle :=
  { oA with dcOk := fun _ => false }

/-- A bidirectional bridge. -/
def bA : Bridge :=
  { name := "bridgeA"
    channelId := 7
    direction := Direction.both
    relayJoinMessages := true
    relayLeaveMessages := true
    sendEmojiWithStickers := false }

/-- A bridge whose (spec-modelled) per-bridge sticker flag is set. -/
def bFlag : Bridge :=
  { bA with name := "bridgeB", channelId := 9, sendEmojiWithStickers := true }

/-- A Discord-to-Telegram-only bridge. -/
def bD2T : Bridge :=
  { bA with name := "bridgeC", direction := Direction.discordToTelegram }

/-- A configuration bridging Telegram chat 5 over `bA`, with the global
sticker-emoji setting off. -/
def cfgA : Config :=
  { me := some "testbot"
    bridgeMap := fun i => if i = 5 then some bA else none
    settings := { sendEmojiWithStickers := false }
    composedOf := fun _ => "**Alice**:\nhello"
    fromOf := fun _ => "Alice"
    mimeExt := fun _ => "ogg" }

/-- A configuration with no bridge at all. -/
def cfgU : Config :=
  { cfgA with bridgeMap := fun _ => none }

/-- A configuration whose only bridge is Discord-to-Telegram only. -/
def cfgD2T : Config :=
  { cfgA with bridgeMap := fun i => if i = 5 then some bD2T else none }

/-- A plain text message in chat 5. -/
def mA : TgMessage :=
  { message_id := 42, chat_id := 5, text := some "hello", caption := none }

/-- A chat-info command, in mixed case, in unbridged chat 10. -/
def mChatinfo : TgMessage :=
  { message_id := 1, chat_id := 10, text := some "@TestBot chatinfo", caption := none }

/-- A plain message in unbridged chat 10. -/
def mU : TgMessage :=
  { message_id := 2, chat_id := 10, text := some "hi", caption := none }

/-- A captionless message shell for media events. -/
def mMedia : TgMessage :=
  { message_id := 50, chat_id := 5, text := none, caption := none }

/-- The chat-info command as a text event. -/
def evChatinfo : Event := ⟨EventKind.text, mChatinfo⟩

/-- A sticker event whose sticker has an associated emoji. -/
def evSticker : Event := ⟨EventKind.sticker "thumb1" (some "e"), mMedia⟩

/-- Two audio events agreeing in every declared field except the title. -/
def evAudio1 : Event := ⟨EventKind.audio "f1" "SongA" "audio/mpeg", mMedia⟩

/-- See `evAudio1`. -/
def evAudio2 : Event := ⟨EventKind.audio "f1" "SongB" "audio/mpeg", mMedia⟩

/-- A user with a last name and a public handle. -/
def userFull : TgUser :=
  { first_name := "Ada", last_name := some "Lovelace", username := some "ada" }

/-- A user with neither last name nor handle. -/
def userBare : TgUser :=
  { first_name := "Bob", last_name := none, username := none }

/-- The configuration `cfgA` with the global sticker-emoji setting on. -/
def cfgEm : Config :=
  { cfgA with settings := { sendEmojiWithStickers := true } }

/-- A voice event. -/
def evVoice : Event := ⟨EventKind.voice "f2" "audio/ogg", mMedia⟩

/-- The bridge `bA` with join relaying off. -/
def bJoinOff : Bridge :=
  { bA with relayJoinMessages := false }

/-! ## General lemmas -/

theorem chunkGo_length : ∀ (fuel : Nat) (l : List Char), l.length ≤ fuel →
    (chunkGo fuel l).length = (l.length + 1999) / 2000
  | 0, l, h => by
    have hl : l = [] := List.eq_nil_of_length_eq_zero (Nat.le_zero.mp h)
    subst hl
    simp [chunkGo]
  | _ + 1, [], _ => by simp [chunkGo]
  | fuel + 1, a :: l, h => by
    have hd : ((a :: l).drop 2000).length ≤ fuel := by
      simp only [List.length_drop, List.length_cons]
      simp only [List.length_cons] at h
      omega
    have ih := chunkGo_length fuel ((a :: l).drop 2000) hd
    simp only [chunkGo, List.length_cons, ih, List.length_drop]
    omega

theorem chunkGo_flatten : ∀ (fuel : Nat) (l : List Char), l.length ≤ fuel →
    (chunkGo fuel l).flatten = l
  | 0, l, h => by
    have hl : l = [] := List.eq_nil_of_length_eq_zero (Nat.le_zero.mp h)
    subst hl
    simp [chunkGo]
  | _ + 1, [], _ => by simp [chunkGo]
  | fuel + 1, a :: l, h => by
    have hd : ((a :: l).drop 2000).length ≤ fuel := by
      simp only [List.length_drop, List.length_cons]
      simp only [List.length_cons] at h
      omega
    have ih := chunkGo_flatten fuel ((a :: l).drop 2000) hd
    simp only [chunkGo, List.flatten_cons, ih, List.take_append_drop]

theorem chunkGo_mem_length_le : ∀ (fuel : Nat) (l c : List Char),
    c ∈ chunkGo fuel l → c.length ≤ 2000
  | 0, _, c, h => by simp [chunkGo] at h
  | _ + 1, [], c, h => by simp [chunkGo] at h
  | fuel + 1, a :: l, c, h => by
    simp only [chunkGo, List.mem_cons] at h
    rcases h with h | h
    · subst h
      simp only [List.length_take]
      omega
    · exact chunkGo_mem_length_le fuel _ c h

theorem chunkGo_ne_nil (fuel : Nat) (a : Char) (l : List Char)
    (h : (a :: l).length ≤ fuel) : chunkGo fuel (a :: l) ≠ [] := by
  cases fuel with
  | zero => simp at h
  | succ fuel => simp [chunkGo]

theorem concatStrings_map_mk : ∀ ls : List (List Char),
    concatStrings (ls.map (fun l => String.mk l)) = String.mk ls.flatten
  | [] => rfl
  | l :: ls => by
    have ih := concatStrings_map_mk ls
    simp only [List.map_cons, concatStrings, List.foldr_cons, List.flatten_cons] at ih ⊢
    rw [ih]
    rfl

theorem jsChunks_of_ne_nil (s : String) (h : s.data ≠ []) :
    jsChunks s = some ((chunkGo s.data.length s.data).map (fun l => String.mk l)) := by
  unfold jsChunks
  cases hs : s.data with
  | nil => exact absurd hs h
  | cons a l => simp [hs]

theorem sendChunks_allOk (o : Oracle) (ch : Nat) (hall : ∀ n, o.dcOk n = true) :
    ∀ (cs : List String) (n : Nat), cs ≠ [] →
    sendChunks o ch n cs =
      (cs.map (DCall.send ch), Except.ok (some (o.dcId (n + cs.length - 1))))
  | [], _, h => absurd rfl h
  | [c], n, _ => by simp [sendChunks, hall n]
  | c :: c' :: cs, n, _ => by
    have ih := sendChunks_allOk o ch hall (c' :: cs) (n + 1) (by simp)
    rw [sendChunks, ih]
    simp only [hall n, if_true, List.map_cons, List.length_cons]
    have harg : n + 1 + (cs.length + 1) - 1 = n + (cs.length + 1 + 1) - 1 := by omega
    rw [harg]

theorem joinNotices_allOk (o : Oracle) (b : Bridge) (hall : ∀ n, o.dcOk n = true) :
    ∀ (users : List TgUser) (n : Nat),
    joinNotices o b n users =
      (users.map (fun u => DCall.send b.channelId (joinText u)), [])
  | [], _ => rfl
  | u :: us, n => by
    have ih := joinNotices_allOk o b hall us (n + 1)
    simp [joinNotices, ih, hall n]

theorem joinNotices_logs_shape (o : Oracle) (b : Bridge) :
    ∀ (users : List TgUser) (n : Nat) (l : String),
    l ∈ (joinNotices o b n users).2 → ∃ what, l = catchLog b what
  | [], _, l, h => by simp [joinNotices] at h
  | u :: us, n, l, h => by
    simp only [joinNotices] at h
    by_cases hn : o.dcOk n = true
    · simp only [hn, if_true] at h
      exact joinNotices_logs_shape o b us (n + 1) l h
    · simp only [eq_false_of_ne_true hn, Bool.false_eq_true, if_false, List.mem_cons] at h
      rcases h with h | h
      · exact ⟨_, h⟩
      · exact joinNotices_logs_shape o b us (n + 1) l h

/-! ## Claim theorems -/

/-- C1: relaying a text event over a bridge splits the composed text of
length L into ceil(L/2000) ordered chunks, each of at most 2000 characters,
whose in-order concatenation equals the composed text; the chunks are sent
sequentially to the bridge's channel in that order, and only the last
chunk's Discord message id is recorded in the correspondence store under the
Telegram message id. -/
theorem text_relay_chunks_correct (o : Oracle) (cfg : Config) (b : Bridge)
    (m : TgMessage) (hall : ∀ n, o.dcOk n = true)
    (hlen : 0 < (cfg.composedOf m).length) :
    ∃ chunks : List String,
      jsChunks (cfg.composedOf m) = some chunks ∧
      chunks.length = ((cfg.composedOf m).length + 1999) / 2000 ∧
      (∀ c ∈ chunks, c.length ≤ 2000) ∧
      concatStrings chunks = cfg.composedOf m ∧
      (textHandler o cfg b m).dcCalls = chunks.map (DCall.send b.channelId) ∧
      (textHandler o cfg b m).inserts = [(m.message_id, o.dcId (chunks.length - 1))] ∧
      (textHandler o cfg b m).logs = [] := by
  have hne : (cfg.composedOf m).data ≠ [] := List.ne_nil_of_length_pos hlen
  refine ⟨(chunkGo (cfg.composedOf m).data.length (cfg.composedOf m).data).map
    (fun l => String.mk l), jsChunks_of_ne_nil _ hne, ?_, ?_, ?_, ?_, ?_, ?_⟩
  case _ =>
    rw [List.length_map, chunkGo_length _ _ le_rfl]
    rfl
  case _ =>
    intro c hc
    obtain ⟨l, hl, rfl⟩ := List.mem_map.mp hc
    exact chunkGo_mem_length_le _ _ _ hl
  all_goals
    have hchne : (chunkGo (cfg.composedOf m).data.length (cfg.composedOf m).data).map
        (fun l => String.mk l) ≠ [] := by
      cases hd : (cfg.composedOf m).data with
      | nil => exact absurd hd hne
      | cons a l =>
        simp only [ne_eq, List.map_eq_nil_iff]
        exact chunkGo_ne_nil _ a l le_rfl
  case _ =>
    rw [concatStrings_map_mk, chunkGo_flatten _ _ le_rfl]
  all_goals
    have hbody : textBody o cfg b m =
        (((chunkGo (cfg.composedOf m).data.length (cfg.composedOf m).data).map
            (fun l => String.mk l)).map (DCall.send b.channelId),
          Except.ok [(m.message_id, o.dcId
            (((chunkGo (cfg.composedOf m).data.length (cfg.composedOf m).data).map
              (fun l => String.mk l)).length - 1))]) := by
      simp only [textBody, jsChunks_of_ne_nil _ hne,
        sendChunks_allOk o b.channelId hall _ 0 hchne, Nat.zero_add]
  case _ => simp only [textHandler, hbody]
  case _ => simp only [textHandler, hbody]
  case _ => simp only [textHandler, hbody]

/-- Witness for C1: a concrete successful text relay. -/
theorem text_relay_chunks_correct_witness :
    ∃ chunks : List String,
      jsChunks (cfgA.composedOf mA) = some chunks ∧
      chunks.length = ((cfgA.composedOf mA).length + 1999) / 2000 ∧
      (∀ c ∈ chunks, c.length ≤ 2000) ∧
      concatStrings chunks = cfgA.composedOf mA ∧
      (textHandler oA cfgA bA mA).dcCalls = chunks.map (DCall.send bA.channelId) ∧
      (textHandler oA cfgA bA mA).inserts = [(mA.message_id, oA.dcId (chunks.length - 1))] ∧
      (textHandler oA cfgA bA mA).logs = [] :=
  text_relay_chunks_correct oA cfgA bA mA (fun _ => rfl) (by decide)

/-- C2: with a recorded correspondence S→D the edit handler performs exactly
one destination edit call, targeting D with the freshly converted composed
text (not re-chunked); with no recorded correspondence it performs zero
destination calls, produces exactly one logged drop, and records nothing. -/
theorem edit_uses_correspondence (o : Oracle) (cfg : Config) (mm : List (Nat × Nat))
    (b : Bridge) (m : TgMessage) :
    (∀ d, mm.lookup m.message_id = some d → (∀ n, o.dcOk n = true) →
      (handleBridged o cfg mm ⟨EventKind.edited, m⟩ b).dcCalls =
        [DCall.fetchMessage b.channelId d, DCall.editMessage d (cfg.composedOf m)] ∧
      (handleBridged o cfg mm ⟨EventKind.edited, m⟩ b).dcCalls.filter isEditCall =
        [DCall.editMessage d (cfg.composedOf m)] ∧
      (handleBridged o cfg mm ⟨EventKind.edited, m⟩ b).logs = []) ∧
    (mm.lookup m.message_id = none →
      (handleBridged o cfg mm ⟨EventKind.edited, m⟩ b).dcCalls = [] ∧
      (handleBridged o cfg mm ⟨EventKind.edited, m⟩ b).logs.length = 1 ∧
      (handleBridged o cfg mm ⟨EventKind.edited, m⟩ b).inserts = []) := by
  constructor
  · intro d hd hall
    simp [handleBridged, bridgedBody, editedBody, hd, hall 0, hall 1, runCatch, isEditCall]
  · intro hd
    simp [handleBridged, bridgedBody, editedBody, hd, runCatch]

/-- Witness for C2: both the correspondence-hit and the correspondence-miss
paths at concrete inputs. -/
theorem edit_uses_correspondence_witness :
    (handleBridged oA cfgA [(42, 777)] ⟨EventKind.edited, mA⟩ bA).dcCalls =
      [DCall.fetchMessage bA.channelId 777, DCall.editMessage 777 (cfgA.composedOf mA)] ∧
    (handleBridged oA cfgA [] ⟨EventKind.edited, mA⟩ bA).dcCalls = [] ∧
    (handleBridged oA cfgA [] ⟨EventKind.edited, mA⟩ bA).logs.length = 1 :=
  ⟨((edit_uses_correspondence oA cfgA [(42, 777)] bA mA).1 777 (by decide) (fun _ => rfl)).1,
   ((edit_uses_correspondence oA cfgA [] bA mA).2 (by decide)).1,
   ((edit_uses_correspondence oA cfgA [] bA mA).2 (by decide)).2.1⟩

/-- C3 counterexample: the chat-metadata command in an unbridged chat is an
incoming event whose source chat id has no bridge, yet no advisory notice is
sent — the router answers with the chat id instead. -/
theorem unbridged_advisory_cex :
    cfgU.bridgeMap mChatinfo.chat_id = none ∧
    (handleEvent oA cfgU [] evChatinfo).tgCalls = [((10 : Int), "chatID: 10")] ∧
    advisoryText ∉ (handleEvent oA cfgU [] evChatinfo).tgCalls.map Prod.snd := by
  refine ⟨rfl, by decide, by decide⟩

/-- C3 amended: for every incoming event that is not intercepted as the
chat-metadata command and whose source chat id has no bridge, exactly one
advisory notice (the fixed text) is sent to the source chat, no relay
handler executes, and a failure of the advisory send itself is only
logged. -/
theorem unbridged_advisory (o : Oracle) (cfg : Config) (mm : List (Nat × Nat))
    (ev : Event) (hci : isChatinfo cfg.me ev.message = false)
    (hbr : cfg.bridgeMap ev.message.chat_id = none) :
    handleEvent o cfg mm ev =
      ⟨[(ev.message.chat_id, advisoryText)], none,
        if o.tgOk then [] else [advisoryFailLog]⟩ := by
  simp [handleEvent, createMessageHandler, hci, hbr]

/-- Witness for C3 (amended) at a concrete event, with the advisory send
itself failing. -/
theorem unbridged_advisory_witness :
    handleEvent oTgFail cfgU [] ⟨EventKind.text, mU⟩ =
      ⟨[((10 : Int), advisoryText)], none,
        if oTgFail.tgOk then [] else [advisoryFailLog]⟩ :=
  unbridged_advisory oTgFail cfgU [] ⟨EventKind.text, mU⟩ (by decide) rfl

/-- C4: an incoming event that reaches bridge resolution (it is not
intercepted as the chat-metadata command) and whose resolved bridge is
Discord-to-Telegram only is dropped silently: no handler runs, nothing is
sent to the source chat, nothing is logged. -/
theorem direction_forbidden_silent (o : Oracle) (cfg : Config) (mm : List (Nat × Nat))
    (ev : Event) (b : Bridge) (hci : isChatinfo cfg.me ev.message = false)
    (hbr : cfg.bridgeMap ev.message.chat_id = some b)
    (hdir : b.direction = Direction.discordToTelegram) :
    handleEvent o cfg mm ev = ⟨[], none, []⟩ := by
  simp [handleEvent, createMessageHandler, hci, hbr, hdir]

/-- Witness for C4 at a concrete event over a Discord-to-Telegram-only
bridge. -/
theorem direction_forbidden_silent_witness :
    handleEvent oA cfgD2T [] ⟨EventKind.text, mA⟩ = ⟨[], none, []⟩ :=
  direction_forbidden_silent oA cfgD2T [] ⟨EventKind.text, mA⟩ bD2T (by decide) (by decide) rfl

theorem runCatch_logs_shape (b : Bridge) (what : String)
    (r : List DCall × Except String (List (Nat × Nat))) :
    ∀ l ∈ (runCatch b what r).logs, ∃ w, l = catchLog b w := by
  rcases r with ⟨calls, r⟩
  cases r with
  | error e =>
    intro l hl
    simp only [runCatch, List.mem_singleton] at hl
    exact ⟨what, hl⟩
  | ok ins =>
    intro l hl
    simp [runCatch] at hl

theorem textHandler_logs_shape (o : Oracle) (cfg : Config) (b : Bridge)
    (m : TgMessage) : ∀ l ∈ (textHandler o cfg b m).logs, ∃ w, l = catchLog b w := by
  intro l hl
  unfold textHandler at hl
  rcases htb : textBody o cfg b m with ⟨calls, r⟩
  rw [htb] at hl
  cases r with
  | error e =>
    simp only [List.mem_cons, List.mem_singleton, List.not_mem_nil, or_false] at hl
    rcases hl with hl | hl
    · exact ⟨_, hl⟩
    · exact ⟨_, hl⟩
  | ok ins => simp at hl

/-- C5: every failure in attachment retrieval or a destination send/edit is
caught inside the handler, turned into log lines tagged with the bridge
name, and does not propagate: a caught body error yields exactly the tagged
log lines and no insert, every log line any handler produces carries the
bridge name tag, and processing a stream of events produces one routing
result per event no matter which calls the oracles fail. -/
theorem failures_isolated :
    (∀ (b : Bridge) (what : String) (calls : List DCall) (e : String),
      runCatch b what (calls, Except.error e) = ⟨calls, [catchLog b what], []⟩) ∧
    (∀ (o : Oracle) (cfg : Config) (b : Bridge) (m : TgMessage) (calls : List DCall)
      (e : String), textBody o cfg b m = (calls, Except.error e) →
      textHandler o cfg b m =
        ⟨calls, [catchLog b "Discord did not accept a text message:",
          catchLog b ("Failed message: " ++ m.text.getD "")], []⟩) ∧
    (∀ (o : Oracle) (cfg : Config) (mm : List (Nat × Nat)) (ev : Event) (b : Bridge),
      ∀ l ∈ (handleBridged o cfg mm ev b).logs, ∃ what, l = catchLog b what) ∧
    (∀ (cfg : Config) (evs : List (Oracle × Event)) (mm : List (Nat × Nat)),
      (processEvents cfg evs mm).1.length = evs.length) := by
  refine ⟨fun b what calls e => rfl, ?_, ?_, ?_⟩
  · intro o cfg b m calls e h
    simp only [textHandler, h]
  · intro o cfg mm ev b
    rcases ev with ⟨k, m⟩
    cases k with
    | text => exact textHandler_logs_shape o cfg b m
    | photo variants => exact runCatch_logs_shape b _ _
    | sticker thumb emoji => exact runCatch_logs_shape b _ _
    | document fid fn mt => exact runCatch_logs_shape b _ _
    | voice fid mt => exact runCatch_logs_shape b _ _
    | audio fid title mt => exact runCatch_logs_shape b _ _
    | video fid mt => exact runCatch_logs_shape b _ _
    | newMembers users =>
      intro l hl
      unfold handleBridged newMembersHandler at hl
      by_cases hj : b.relayJoinMessages = true
      · simp only [hj, if_true] at hl
        exact joinNotices_logs_shape o b users 0 l hl
      · simp only [eq_false_of_ne_true hj, Bool.false_eq_true, if_false] at hl
        simp at hl
    | leftMember u =>
      intro l hl
      unfold handleBridged leftHandler at hl
      by_cases hj : b.relayLeaveMessages = true
      · simp only [hj, if_true] at hl
        by_cases hdc : o.dcOk 0 = true
        · simp only [hdc, if_true] at hl
          simp at hl
        · simp only [eq_false_of_ne_true hdc, Bool.false_eq_true, if_false,
            List.mem_singleton] at hl
          exact ⟨_, hl⟩
      · simp only [eq_false_of_ne_true hj, Bool.false_eq_true, if_false] at hl
        simp at hl
    | edited => exact runCatch_logs_shape b _ _
  · intro cfg evs
    induction evs with
    | nil => intro mm; simp [processEvents]
    | cons oe rest ih =>
      intro mm
      rcases oe with ⟨o, ev⟩
      simp [processEvents, ih]

/-- Witness for C5: a caught failure at a concrete failing sticker relay,
with the tagged log, followed by an unimpeded second event. -/
theorem failures_isolated_witness :
    runCatch bA "Could not send photo" ([], Except.error "boom") =
      ⟨[], [catchLog bA "Could not send photo"], []⟩ ∧
    (∃ what, catchLog bA "Could not send sticker" = catchLog bA what) ∧
    (processEvents cfgA [(oDcFail, evSticker), (oA, ⟨EventKind.text, mA⟩)] []).1.length = 2 :=
  ⟨failures_isolated.1 bA "Could not send photo" [] "boom",
   failures_isolated.2.2.1 oDcFail cfgA [] evSticker bA
     (catchLog bA "Could not send sticker") (by decide),
   failures_isolated.2.2.2 cfgA [(oDcFail, evSticker), (oA, ⟨EventKind.text, mA⟩)] []⟩

/-- C6 counterexample: a bridge whose (spec-claimed) per-bridge
sendEmojiWithStickers flag is set, under a configuration whose global
setting is off: the sticker's emoji "e" is not sent — the caption part of
the sent text is empty — so the caption is not governed by the bridge's
flag. -/
theorem sticker_flag_cex :
    bFlag.sendEmojiWithStickers = true ∧
    (handleBridged oA cfgA [] evSticker bFlag).dcCalls =
      [DCall.sendWithFile 9 "**Alice**:\n" "thumb1" "sticker.webp"] ∧
    ("**Alice**:\n" : String) ≠ "**Alice**:\n" ++ "e" :=
  ⟨rfl, by decide, by decide⟩

/-- C6 amended: the sticker relay sends the sticker's thumbnail variant
under the fixed name "sticker.webp", and the caption appended to the header
is the sticker's emoji exactly when the global
settings.telegram.sendEmojiWithStickers flag is enabled, else empty. -/
theorem sticker_caption_follows_settings (o : Oracle) (cfg : Config)
    (mm : List (Nat × Nat)) (b : Bridge) (m : TgMessage) (thumb : String)
    (emoji : Option String) (e : String) (hem : emoji = some e)
    (hfile : ∀ f, o.fileOk f = true) (hdc : o.dcOk 0 = true) :
    (handleBridged o cfg mm ⟨EventKind.sticker thumb emoji, m⟩ b).dcCalls =
      [DCall.sendWithFile b.channelId
        ("**" ++ cfg.fromOf m ++ "**:\n" ++
          (if cfg.settings.sendEmojiWithStickers then e else ""))
        thumb "sticker.webp"] ∧
    (stickerArgs cfg.settings thumb emoji).caption =
      (if cfg.settings.sendEmojiWithStickers then e else "") := by
  subst hem
  constructor
  · simp [handleBridged, bridgedBody, sendFileBody, stickerArgs, hfile, hdc, runCatch]
  · simp [stickerArgs]

/-- Witness for C6 (amended): the emoji is sent when the global setting is
on. -/
theorem sticker_caption_follows_settings_witness :
    (handleBridged oA cfgEm [] evSticker bA).dcCalls =
      [DCall.sendWithFile bA.channelId
        ("**" ++ cfgEm.fromOf mMedia ++ "**:\n" ++
          (if cfgEm.settings.sendEmojiWithStickers then "e" else ""))
        "thumb1" "sticker.webp"] ∧
    (stickerArgs cfgEm.settings "thumb1" (some "e")).caption =
      (if cfgEm.settings.sendEmojiWithStickers then "e" else "") :=
  sticker_caption_follows_settings oA cfgEm [] bA mMedia "thumb1" (some "e") "e"
    rfl (fun _ => rfl) rfl

/-- C7 counterexample: two audio events with the same declared content type
but different titles are relayed under different filenames, so the audio
filename is not synthesized from a fixed base name plus an extension
resolved from the declared content-type — it is the audio's title plus the
server-resolved extension. -/
theorem audio_filename_cex :
    (handleBridged oA cfgA [] evAudio1 bA).dcCalls =
      [DCall.sendWithFile 7 "**Alice**:\n" "f1" "SongA.mp3"] ∧
    (handleBridged oA cfgA [] evAudio2 bA).dcCalls =
      [DCall.sendWithFile 7 "**Alice**:\n" "f1" "SongB.mp3"] ∧
    ("SongA.mp3" : String) ≠ "SongB.mp3" :=
  ⟨by decide, by decide, by decide⟩

/-- C7 amended: the voice filename is the fixed base "voice" plus a dot plus
the extension resolved from the declared content-type, with no server-side
resolution requested; the audio filename is the audio's declared title, with
server-side extension resolution requested, appending a dot plus the
extension taken from the server-reported file path. -/
theorem voice_audio_filenames (o : Oracle) (cfg : Config) (mm : List (Nat × Nat))
    (b : Bridge) (m : TgMessage) (fid title mt : String)
    (hfile : ∀ f, o.fileOk f = true) (hdc : o.dcOk 0 = true) :
    ((voiceArgs cfg.mimeExt fid mt).resolveExtension = false ∧
      (handleBridged o cfg mm ⟨EventKind.voice fid mt, m⟩ b).dcCalls =
        [DCall.sendWithFile b.channelId ("**" ++ cfg.fromOf m ++ "**:\n")
          fid ("voice" ++ "." ++ cfg.mimeExt mt)]) ∧
    ((audioArgs fid title).resolveExtension = true ∧
      (handleBridged o cfg mm ⟨EventKind.audio fid title mt, m⟩ b).dcCalls =
        [DCall.sendWithFile b.channelId ("**" ++ cfg.fromOf m ++ "**:\n")
          fid (title ++ "." ++ String.mk (afterLastDot [] (o.file_path fid).data))]) := by
  refine ⟨⟨rfl, ?_⟩, ⟨rfl, ?_⟩⟩
  · simp [handleBridged, bridgedBody, sendFileBody, voiceArgs, hfile, hdc, runCatch]
  · simp [handleBridged, bridgedBody, sendFileBody, audioArgs, hfile, hdc, runCatch,
      String.append_assoc]

/-- Witness for C7 (amended) at concrete voice and audio events. -/
theorem voice_audio_filenames_witness :
    ((voiceArgs cfgA.mimeExt "f2" "audio/ogg").resolveExtension = false ∧
      (handleBridged oA cfgA [] evVoice bA).dcCalls =
        [DCall.sendWithFile bA.channelId ("**" ++ cfgA.fromOf mMedia ++ "**:\n")
          "f2" ("voice" ++ "." ++ cfgA.mimeExt "audio/ogg")]) ∧
    ((audioArgs "f2" "SongA").resolveExtension = true ∧
      (handleBridged oA cfgA [] ⟨EventKind.audio "f2" "SongA" "audio/ogg", mMedia⟩ bA).dcCalls =
        [DCall.sendWithFile bA.channelId ("**" ++ cfgA.fromOf mMedia ++ "**:\n")
          "f2" ("SongA" ++ "." ++ String.mk (afterLastDot [] (oA.file_path "f2").data))]) :=
  voice_audio_filenames oA cfgA [] bA mMedia "f2" "SongA" "audio/ogg"
    (fun _ => rfl) rfl

/-- C8: a join event on a bridge with relayJoinMessages=false makes zero
destination calls; with relayJoinMessages=true exactly one notice is sent
per joining user, each containing that user's display name (first name,
plus last name when present) and "@"+handle, or the fixed placeholder when
the user has no public handle. -/
theorem join_notice_per_user (o : Oracle) (b : Bridge) (users : List TgUser)
    (hall : ∀ n, o.dcOk n = true) :
    (b.relayJoinMessages = false → newMembersHandler o b users = ⟨[], [], []⟩) ∧
    (b.relayJoinMessages = true →
      (newMembersHandler o b users).dcCalls =
        users.map (fun u => DCall.send b.channelId (joinText u)) ∧
      (newMembersHandler o b users).logs = [] ∧
      ∀ u ∈ users,
        (∃ pre post, joinText u = pre ++ (makeName u ++ post)) ∧
        (∃ pre post, joinText u = pre ++ (makeUsername u ++ post)) ∧
        (∀ l, u.last_name = some l → makeName u = u.first_name ++ (" " ++ l)) ∧
        (u.last_name = none → makeName u = u.first_name) ∧
        (∀ h, u.username = some h → makeUsername u = "@" ++ h) ∧
        (u.username = none → makeUsername u = "No username")) := by
  constructor
  · intro hj
    simp [newMembersHandler, hj]
  · intro hj
    refine ⟨?_, ?_, ?_⟩
    · simp [newMembersHandler, hj, joinNotices_allOk o b hall users 0]
    · simp [newMembersHandler, hj, joinNotices_allOk o b hall users 0]
    · intro u _
      refine ⟨⟨"**", " (" ++ (makeUsername u ++ ")** joined the Telegram side of the chat"),
          by simp [joinText, String.append_assoc]⟩, ?_, ?_, ?_, ?_, ?_⟩
      · refine ⟨"**" ++ makeName u ++ " (", ")** joined the Telegram side of the chat", ?_⟩
        simp [joinText, String.append_assoc]
      · intro l hl
        simp [makeName, hl]
      · intro hl
        simp [makeName, hl]
      · intro h hh
        simp [makeUsername, hh]
      · intro hh
        simp [makeUsername, hh]

/-- Witness for C8: both flag values at a concrete pair of users, one with
and one without last name and handle. -/
theorem join_notice_per_user_witness :
    newMembersHandler oA bJoinOff [userFull, userBare] = ⟨[], [], []⟩ ∧
    (newMembersHandler oA bA [userFull, userBare]).dcCalls =
      [userFull, userBare].map (fun u => DCall.send bA.channelId (joinText u)) :=
  ⟨(join_notice_per_user oA bJoinOff [userFull, userBare] (fun _ => rfl)).1 rfl,
   ((join_notice_per_user oA bA [userFull, userBare] (fun _ => rfl)).2 rfl).1⟩

/-- C9: a text event whose text is the chat-metadata command addressed to
the bot by name, matched case-insensitively, is answered in the same chat
with "chatID: " plus the raw chat identifier; no bridge resolution output
and no relay occur, whatever the bridge map holds for that chat. -/
theorem chatinfo_intercepts (o : Oracle) (cfg : Config) (mm : List (Nat × Nat))
    (ev : Event) (t u : String) (ht : ev.message.text = some t)
    (hme : cfg.me = some u) (heq : jsLower t = jsLower ("@" ++ u ++ " chatinfo")) :
    handleEvent o cfg mm ev =
      ⟨[(ev.message.chat_id, "chatID: " ++ toString ev.message.chat_id)], none, []⟩ := by
  have hci : isChatinfo cfg.me ev.message = true := by
    simp [isChatinfo, ht, hme, heq]
  simp [handleEvent, createMessageHandler, hci]

/-- Witness for C9: the mixed-case command in an unbridged chat. -/
theorem chatinfo_intercepts_witness :
    handleEvent oA cfgU [] evChatinfo =
      ⟨[(mChatinfo.chat_id, "chatID: " ++ toString mChatinfo.chat_id)], none, []⟩ :=
  chatinfo_intercepts oA cfgU [] evChatinfo "@TestBot chatinfo" "testbot" rfl rfl (by decide)

theorem sendFileBody_ok_nil (o : Oracle) (cfg : Config) (b : Bridge) (m : TgMessage)
    (a : FileArgs) (ins : List (Nat × Nat))
    (h : (sendFileBody o cfg b m a).2 = Except.ok ins) : ins = [] := by
  unfold sendFileBody at h
  by_cases h1 : o.fileOk a.fileId = true
  · simp only [h1, if_true] at h
    by_cases h2 : o.dcOk 0 = true
    · simp only [h2, if_true] at h
      exact (Except.ok.inj h).symm
    · simp [eq_false_of_ne_true h2] at h
  · simp [eq_false_of_ne_true h1] at h

theorem editedBody_ok_nil (o : Oracle) (cfg : Config) (mm : List (Nat × Nat))
    (b : Bridge) (m : TgMessage) (ins : List (Nat × Nat))
    (h : (editedBody o cfg mm b m).2 = Except.ok ins) : ins = [] := by
  unfold editedBody at h
  rcases hl : mm.lookup m.message_id with _ | d
  · rw [hl] at h
    simp at h
  · rw [hl] at h
    by_cases h1 : o.dcOk 0 = true
    · simp only [h1, if_true] at h
      by_cases h2 : o.dcOk 1 = true
      · simp only [h2, if_true] at h
        exact (Except.ok.inj h).symm
      · simp [eq_false_of_ne_true h2] at h
    · simp [eq_false_of_ne_true h1] at h

theorem runCatch_inserts_nil (b : Bridge) (what : String)
    (r : List DCall × Except String (List (Nat × Nat)))
    (h : ∀ ins, r.2 = Except.ok ins → ins = []) :
    (runCatch b what r).inserts = [] := by
  rcases r with ⟨calls, r⟩
  cases r with
  | error e => rfl
  | ok ins => exact h ins rfl

/-- C10: only the text handler records correspondence entries — photo,
sticker, document, voice, audio, video, join, leave and edit record nothing
— and an edit event whose message id has no recorded entry takes the
correspondence-miss path: zero destination calls and one logged drop. -/
theorem only_text_inserts (o : Oracle) (cfg : Config) (mm : List (Nat × Nat))
    (ev : Event) (b : Bridge) (hk : ev.kind ≠ EventKind.text) :
    (handleBridged o cfg mm ev b).inserts = [] ∧
    (ev.kind = EventKind.edited → mm.lookup ev.message.message_id = none →
      (handleBridged o cfg mm ev b).dcCalls = [] ∧
      (handleBridged o cfg mm ev b).logs.length = 1) := by
  rcases ev with ⟨k, m⟩
  cases k with
  | text => exact absurd rfl hk
  | photo variants =>
    refine ⟨?_, by intro h; simp at h⟩
    apply runCatch_inserts_nil
    intro ins h
    simp only [bridgedBody] at h
    rcases hv : variants.getLast? with _ | fid
    · rw [hv] at h
      simp at h
    · rw [hv] at h
      exact sendFileBody_ok_nil _ _ _ _ _ _ h
  | sticker thumb emoji =>
    refine ⟨?_, by intro h; simp at h⟩
    exact runCatch_inserts_nil _ _ _ (fun ins h => sendFileBody_ok_nil _ _ _ _ _ _ h)
  | document fid fn mt =>
    refine ⟨?_, by intro h; simp at h⟩
    exact runCatch_inserts_nil _ _ _ (fun ins h => sendFileBody_ok_nil _ _ _ _ _ _ h)
  | voice fid mt =>
    refine ⟨?_, by intro h; simp at h⟩
    exact runCatch_inserts_nil _ _ _ (fun ins h => sendFileBody_ok_nil _ _ _ _ _ _ h)
  | audio fid title mt =>
    refine ⟨?_, by intro h; simp at h⟩
    exact runCatch_inserts_nil _ _ _ (fun ins h => sendFileBody_ok_nil _ _ _ _ _ _ h)
  | video fid mt =>
    refine ⟨?_, by intro h; simp at h⟩
    exact runCatch_inserts_nil _ _ _ (fun ins h => sendFileBody_ok_nil _ _ _ _ _ _ h)
  | newMembers users =>
    refine ⟨?_, by intro h; simp at h⟩
    simp only [handleBridged, newMembersHandler]
    split <;> rfl
  | leftMember u =>
    refine ⟨?_, by intro h; simp at h⟩
    simp only [handleBridged, leftHandler]
    split
    · split <;> rfl
    · rfl
  | edited =>
    constructor
    · exact runCatch_inserts_nil _ _ _ (fun ins h => editedBody_ok_nil _ _ _ _ _ _ h)
    · intro _ hnone
      constructor <;> simp [handleBridged, bridgedBody, editedBody, hnone, runCatch]

/-- Witness for C10: a sticker relay records nothing, and a subsequent edit
of that message id takes the miss path. -/
theorem only_text_inserts_witness :
    (handleBridged oA cfgA [] evSticker bA).inserts = [] ∧
    (handleBridged oA cfgA [] ⟨EventKind.edited, mMedia⟩ bA).dcCalls = [] ∧
    (handleBridged oA cfgA [] ⟨EventKind.edited, mMedia⟩ bA).logs.length = 1 :=
  ⟨(only_text_inserts oA cfgA [] evSticker bA (by decide)).1,
   ((only_text_inserts oA cfgA [] ⟨EventKind.edited, mMedia⟩ bA (by decide)).2 rfl rfl).1,
   ((only_text_inserts oA cfgA [] ⟨EventKind.edited, mMedia⟩ bA (by decide)).2 rfl rfl).2⟩
